import Mathlib

/-!
Verification development for the C-PAC BIDS-App runner script (`run.py`).

The script is a single Python 2 module: it parses CLI arguments, merges them
into a base pipeline configuration loaded from YAML, optionally validates the
dataset, resolves the subject manifest (either by scanning the BIDS directory
or by loading an external data-config file), applies participant filtering and
index selection, writes both resolved documents, and dispatches to the
execution engine.

We embed the decision logic shallowly:
  * Python dictionaries of settings become Lean structures with `Option`
    fields (a `none` field models an absent key, read access to an absent key
    models `KeyError`).
  * Python exceptions and `sys.exit` become an explicit `Halt` value; a
    Python process that dies of an uncaught exception terminates with
    status 1, which is how `haltResult` maps `Halt.raised` to an exit code.
  * Python floats are modelled as exact rationals (the only arithmetic in the
    script is `float(mem_mb) / 1024.0`, exact in binary floating point for the
    magnitudes involved, and comparisons of small integers).
  * Python sets of subject identifiers are modelled as deduplicated lists;
    the claims compare them only up to membership or at singletons, so the
    arbitrary hash order of Python 2 sets is immaterial.
  * The dynamic-typing failures that the source actually contains are
    modelled at the operation level: name lookup in the module environment
    (`evalName`), method lookup on set objects (`pySetCallMethod`), and list
    subscripting with a dynamically typed index (`pyListSubscript`).
External collaborators (BIDS validator, `BIDSLayout`, YAML parsing, the
execution engine, the GUI) are inputs of the `World` structure.
-/

/-- Python exceptions that the embedded fragments of `run.py` can raise. -/
inductive PyError where
  | nameError (n : String)
  | attributeError (msg : String)
  | typeError (msg : String)
  | valueError (msg : String)
  | keyError (k : String)
  | ioError (msg : String)
  deriving DecidableEq, Repr

/-- How a run of the script ends early: `sys.exit(code)` or an uncaught
exception propagating out of the module. -/
inductive Halt where
  | exited (code : Int)
  | raised (e : PyError)
  deriving DecidableEq, Repr

/-- Lift a fragment that can raise a Python exception into the `Halt` error
monad of the whole script. -/
def asRaised {α : Type} : Except PyError α → Except Halt α
  | .ok a => .ok a
  | .error e => .error (Halt.raised e)

/-- Python `str.lower()` (the script only ever lowercases ASCII paths). -/
def pyLower (s : String) : String := ⟨s.data.map Char.toLower⟩

/-- Does `pat` occur as a contiguous run inside `l`?  This is Python's
`pat in s` substring test on the character lists. -/
def listHasInfix (pat : List Char) : List Char → Bool
  | [] => pat.isEmpty
  | c :: rest => pat.isPrefixOf (c :: rest) || listHasInfix pat rest

/-- The test `"s3://" in args.output_dir.lower()` from `run.py` (a substring
containment test, applied at lines 144, 180, 212 and 301). -/
def containsS3 (s : String) : Bool := listHasInfix "s3://".data (pyLower s).data

/-- The test `args.bids_dir.lower().startswith("s3://")` from `run.py`
line 114 / 119 (a prefix test, used only for the existence gates). -/
def startsS3 (s : String) : Bool := "s3://".data.isPrefixOf (pyLower s).data

/-- Python `os.path.join` restricted to the shapes the script uses
(second component a relative file or directory name). -/
def pathJoin (a b : String) : String :=
  if "/".data.isPrefixOf b.data then b
  else if "/".data.isSuffixOf a.data then a ++ b
  else if a = "" then b
  else a ++ "/" ++ b

/-- Python `str.lstrip(chars)`: remove leading characters that are members of
the character set `chars` (NOT prefix removal).  `run.py` line 246 calls
`sub.lstrip('sub-')`. -/
def pyLstripChars (chars : List Char) : List Char → List Char
  | [] => []
  | c :: rest => if c ∈ chars then pyLstripChars chars rest else c :: rest

/-- `sub.lstrip('sub-')` as applied to a whole string. -/
def pyLstrip (chars : String) (s : String) : String :=
  ⟨pyLstripChars chars.data s.data⟩

/-- Value of a run of decimal digits, or `none` on a non-digit. -/
def digitsVal (acc : Nat) : List Char → Option Nat
  | [] => some acc
  | c :: rest =>
    if c.isDigit then digitsVal (acc * 10 + (c.toNat - 48)) rest else none

/-- Python `int(s)` on a string (as the script applies it to CLI index
strings: an optional sign followed by decimal digits), raising `ValueError`
when it does not parse as an integer literal. -/
def pyInt (s : String) : Except PyError Int :=
  match s.data with
  | [] => .error (PyError.valueError s)
  | List.cons '-' rest =>
    match digitsVal 0 rest with
    | some n => if rest = [] then .error (PyError.valueError s) else .ok (-(n : Int))
    | none => .error (PyError.valueError s)
  | l =>
    match digitsVal 0 l with
    | some n => .ok (n : Int)
    | none => .error (PyError.valueError s)

/-- Python `set(xs)` built from a list: deduplicate, keep one copy of each
member (iteration order of a Python 2 set is arbitrary; the claims only use
membership and singletons). -/
def pySetOfList (xs : List String) : List String := xs.dedup

/-- Python set difference `a - b` (members of `a` not in `b`). -/
def pySetDiff (a b : List String) : List String := a.filter (fun x => x ∉ b)

/-- The methods that Python 2 `set` objects actually expose among those this
script could have meant at line 247.  `intersect` is not one of them. -/
def setBinaryMethods : List String := ["intersection", "union", "difference", "symmetric_difference"]

/-- Semantics of the set methods of `setBinaryMethods`. -/
def setMethodApply (m : String) (a b : List String) : List String :=
  if m = "intersection" then a.filter (fun x => x ∈ b)
  else if m = "union" then a ++ pySetDiff b a
  else if m = "difference" then pySetDiff a b
  else pySetDiff a b ++ pySetDiff b a

/-- Python attribute lookup plus call `a.m(b)` on a set object: raises
`AttributeError` when `m` is not a set method.  `run.py` line 247 calls
`subjects_bids.intersect(subjects_selected)`. -/
def pySetCallMethod (a : List String) (m : String) (b : List String) :
    Except PyError (List String) :=
  if m ∈ setBinaryMethods then .ok (setMethodApply m a b)
  else .error (PyError.attributeError ("'set' object has no attribute '" ++ m ++ "'"))

/-- Python list subscripting `xs[i]` with a dynamically typed index, as in
`data_config['subjectList'][args.participant_ndx]` (`run.py` line 291), where
`args.participant_ndx` is the raw CLI string.  A string index raises
`TypeError`; an integer index in range selects the element. -/
inductive PyIdx where
  | int (i : Int)
  | str (s : String)
  deriving DecidableEq, Repr

/-- Subscript a list by a dynamic index value. -/
def pyListSubscript (xs : List String) (i : PyIdx) : Except PyError String :=
  match i with
  | .str _ => .error (PyError.typeError "list indices must be integers, not str")
  | .int n =>
    if h : 0 ≤ n ∧ n.toNat < xs.length then .ok (xs.get ⟨n.toNat, h.2⟩)
    else .error (PyError.valueError "list index out of range")

/-- The analysis level positional argument (`run.py` line 40, choices). -/
inductive AnalysisLevel where
  | participant | group | test_config | GUI
  deriving DecidableEq, Repr

/-- The CLI arguments of `run.py` after argparse, restricted to those the
core logic reads.  Numeric arguments arrive as strings in Python; where the
script converts them unconditionally and the claims quantify over valid
numbers (`int(args.n_cpus)`, `float(args.mem_gb)`), we model the parsed
value; `participant_ndx` stays a string because the script uses the raw
string as a list index. -/
structure Args where
  bids_dir : String
  output_dir : String
  analysis_level : AnalysisLevel
  data_config_file : Option String := none
  aws_input_creds : Option String := none
  aws_output_creds : Option String := none
  n_cpus : Int := 1
  mem_mb : Option ℚ := none
  mem_gb : Option ℚ := none
  save_working_dir : Bool := false
  disable_file_logging : Bool := false
  participant_label : Option (List String) := none
  participant_ndx : Option String := none

/-- The pipeline configuration dictionary, restricted to the keys the script
reads or writes.  A `none` field is an absent key. -/
structure PipelineConfig where
  outputDirectory : Option String := none
  crashLogDirectory : Option String := none
  logDirectory : Option String := none
  maximumMemoryPerParticipant : Option ℚ := none
  maxCoresPerParticipant : Option Int := none
  numParticipantsAtOnce : Option Int := none
  num_ants_threads : Option Int := none
  awsCredentialsFile : Option String := none
  awsOutputBucketCredentials : Option String := none
  disable_log : Option Bool := none
  removeWorkingDir : Option Bool := none
  workingDirectory : Option String := none
  deriving DecidableEq, Repr

/-- The data configuration dictionary, restricted to the keys the script
reads or writes. -/
structure DataConfig where
  dataFormat : Option (List String) := none
  bidsBaseDir : Option String := none
  outputSubjectListLocation : Option String := none
  subjectListName : Option (List String) := none
  awsCredentialsFile : Option String := none
  subjectList : List String := []
  deriving DecidableEq, Repr

/-- The external collaborators and ambient filesystem the script consults:
`os.path.exists`, `os.path.isfile`, the YAML-loaded base pipeline config,
`BIDSLayout(...).get_subjects()`, the YAML-loaded external data config, and
the formatted run timestamp `st`. -/
structure World where
  fsExists : String → Bool
  isFile : String → Bool
  basePipelineConfig : PipelineConfig
  bidsSubjects : List String
  loadedDataConfig : DataConfig
  st : String

/-- Memory resolution, `run.py` lines 151-156: `mem_gb` wins, else
`mem_mb / 1024.0`, else the fixed baseline `6.0`. -/
def resolveMemory (mem_gb mem_mb : Option ℚ) : ℚ :=
  match mem_gb with
  | some g => g
  | none =>
    match mem_mb with
    | some m => m / 1024
    | none => 6

/-- Validation of an AWS credentials override, `run.py` lines 162-172: a
supplied path must be a file, else `IOError`. -/
def checkCred (w : World) (cred : Option String) : Except PyError (Option String) :=
  match cred with
  | none => .ok none
  | some c =>
    if w.isFile c then .ok (some c)
    else .error (PyError.ioError ("Could not find aws credentials " ++ c))

/-- The pure part of the override merge, `run.py` lines 142-160 and 174-189:
directory derivation, memory and thread resolution, logging flag, and the
working-directory retention decision.  `d` is the base config's
`num_ants_threads` value, `ic`/`oc` the validated credential overrides. -/
def applyOverrides (a : Args) (base : PipelineConfig) (d : Int)
    (ic oc : Option String) : PipelineConfig :=
  let pc := { base with outputDirectory := some (pathJoin a.output_dir "output") }
  let pc :=
    if containsS3 a.output_dir = false then
      { pc with crashLogDirectory := some (pathJoin a.output_dir "crash"),
                logDirectory := some (pathJoin a.output_dir "log") }
    else
      { pc with crashLogDirectory := some (pathJoin "/scratch" "crash"),
                logDirectory := some (pathJoin "/scratch" "log") }
  let pc := { pc with
                maximumMemoryPerParticipant := some (resolveMemory a.mem_gb a.mem_mb),
                maxCoresPerParticipant := some a.n_cpus,
                numParticipantsAtOnce := some 1,
                num_ants_threads := some (min a.n_cpus d) }
  let pc :=
    match ic with
    | some c => { pc with awsCredentialsFile := some c }
    | none => pc
  let pc :=
    match oc with
    | some c => { pc with awsOutputBucketCredentials := some c }
    | none => pc
  let pc :=
    if a.disable_file_logging = true then { pc with disable_log := some true }
    else { pc with disable_log := some false }
  if a.save_working_dir = true then
    if containsS3 a.output_dir = false then
      { pc with removeWorkingDir := some false,
                workingDirectory := some (pathJoin a.output_dir "working") }
    else
      -- line 184: only a warning is printed; no field is assigned
      pc
  else
    { pc with removeWorkingDir := some true,
              workingDirectory := some (pathJoin "/scratch" "working") }

/-- The full override merge, `run.py` lines 142-189.  Reading
`pipeline_config['num_ants_threads']` (line 160) raises `KeyError` when the
base document lacks the key; the credential checks can raise `IOError`.
Failure order follows the line order of the source. -/
def mergePipelineConfig (w : World) (a : Args) (base : PipelineConfig) :
    Except PyError PipelineConfig :=
  match base.num_ants_threads with
  | none => .error (PyError.keyError "num_ants_threads")
  | some d =>
    match checkCred w a.aws_input_creds with
    | .error e => .error e
    | .ok ic =>
      match checkCred w a.aws_output_creds with
      | .error e => .error e
      | .ok oc => .ok (applyOverrides a base d ic oc)

/-- The module-level names that are bound by the time `run.py` line 234
executes (imports, the helper function, argparse objects, the merged config,
the timestamp pair and the pipeline-config file handle).  The four dictionary
keys of the `data_config` literal are bare identifiers and none of them is in
this environment. -/
def boundModuleNames : List String :=
  ["argparse", "os", "subprocess", "yaml", "sys", "BIDSLayout", "datetime",
   "time", "__version__", "run", "parser", "args", "pipeline_config", "ts",
   "st", "f", "config_file", "layout", "CPAC"]

/-- Evaluate a bare identifier at module scope: `NameError` when unbound. -/
def evalName (n : String) : Except PyError Unit :=
  if n ∈ boundModuleNames then .ok () else .error (PyError.nameError n)

/-- The subject-filtering fragment of the scan path, `run.py` lines 246-252:
normalize the requested labels with `lstrip('sub-')`, call the (nonexistent)
`intersect` method on the discovered-subject set, take the set difference for
the missing report, and re-prefix the survivors with `'sub-'`.  Returns the
resolved subject list and the missing set. -/
def scanLabelFilter (subjects_bids : List String) (labels : List String) :
    Except PyError (List String × List String) := do
  let subjects_selected := pySetOfList (labels.map (fun sub => pyLstrip "sub-" sub))
  let subjects_torun ← pySetCallMethod subjects_bids "intersect" subjects_selected
  let subjects_missing := pySetDiff subjects_selected subjects_torun
  .ok (subjects_torun.map (fun sub => "sub-" ++ sub), subjects_missing)

/-- The scan path of the manifest resolver, `run.py` lines 230-268: build the
synthesized `data_config` dictionary (whose literal keys are the bare
identifiers `dataFormat`, `bidsBaseDir`, `outputSubjectListLocation`,
`subjectListName` — evaluated before anything else in the block can run),
then discover subjects, apply label filtering, and fail with `sys.exit(1)`
when the resolved list is empty. -/
def scanPath (w : World) (a : Args) : Except Halt DataConfig := do
  asRaised (evalName "dataFormat")
  asRaised (evalName "bidsBaseDir")
  asRaised (evalName "outputSubjectListLocation")
  asRaised (evalName "subjectListName")
  let dc : DataConfig :=
    { dataFormat := some ["BIDS"],
      bidsBaseDir := some a.bids_dir,
      outputSubjectListLocation := some a.output_dir,
      subjectListName := some ["bids_sublist"] }
  let dc :=
    match a.aws_input_creds with
    | some c => { dc with awsCredentialsFile := some c }
    | none => dc
  let subjects_bids := pySetOfList w.bidsSubjects
  let subjects ←
    match a.participant_label with
    | some labels =>
      if labels = [] then
        .ok (subjects_bids.map (fun sub => "sub-" ++ sub))
      else do
        let p ← asRaised (scanLabelFilter subjects_bids labels)
        .ok p.1
    | none => .ok (subjects_bids.map (fun sub => "sub-" ++ sub))
  if subjects = [] then Except.error (Halt.exited 1)
  else .ok { dc with subjectList := subjects }

/-- The manifest-file path, `run.py` lines 269-271: `yaml.load(open(...))`;
a missing file raises `IOError`. -/
def loadDataConfig (w : World) (p : String) : Except Halt DataConfig :=
  if w.fsExists p then .ok w.loadedDataConfig
  else .error (Halt.raised (PyError.ioError ("No such file or directory: " ++ p)))

/-- Participant-index selection and data-config artifact naming, `run.py`
lines 288-299.  `args.participant_ndx` is the raw CLI string; `None` or the
empty string is falsy and selects the unindexed artifact name.  On a truthy
index, `int(...)` is applied for the bounds test, but the raw STRING is used
to subscript the subject list at line 291, and `sys.exit(1)` reports the
valid range on a bounds failure. -/
def ndxSelect (dc : DataConfig) (ndx : Option String) (st : String) :
    Except Halt (DataConfig × String) :=
  match ndx with
  | none => .ok (dc, "cpac_data_config_" ++ st ++ ".yml")
  | some n =>
    if n = "" then .ok (dc, "cpac_data_config_" ++ st ++ ".yml")
    else
      match pyInt n with
      | .error e => .error (Halt.raised e)
      | .ok i =>
        if 0 ≤ i ∧ i < (dc.subjectList.length : Int) then
          match pyListSubscript dc.subjectList (PyIdx.str n) with
          | .error e => .error (Halt.raised e)
          | .ok sel =>
            .ok ({ dc with subjectList := [sel] },
                 "cpac_data_config_pt" ++ n ++ "_" ++ st ++ ".yml")
        else .error (Halt.exited 1)

/-- The pipeline-config artifact path, `run.py` lines 212-215. -/
def pipelineConfigPath (out st : String) : String :=
  if containsS3 out = false then
    pathJoin out ("cpac_pipeline_config_" ++ st ++ ".yml")
  else
    pathJoin "/scratch" ("cpac_pipeline_config_" ++ st ++ ".yml")

/-- The data-config artifact path, `run.py` lines 301-304. -/
def dataConfigPath (out name : String) : String :=
  if containsS3 out = false then pathJoin out name
  else pathJoin "/scratch" name

/-- Observable outcome of one process run of `run.py`: the exit status, the
artifact files written (in order), whether the execution engine
(`CPAC.pipeline.cpac_runner.run`) was invoked, whether the GUI was invoked,
the uncaught exception if one escaped, and whether control reached the final
dispatcher (`run.py` line 309). -/
structure RunResult where
  exitCode : Int
  writes : List String
  engineInvoked : Bool
  guiInvoked : Bool
  uncaught : Option PyError
  dispatched : Bool
  deriving DecidableEq, Repr

/-- Outcome of a run that halts early, given the artifacts written so far.
An uncaught Python exception terminates the process with status 1. -/
def haltResult (h : Halt) (ws : List String) : RunResult :=
  match h with
  | .exited c =>
    { exitCode := c, writes := ws, engineInvoked := false, guiInvoked := false,
      uncaught := none, dispatched := false }
  | .raised e =>
    { exitCode := 1, writes := ws, engineInvoked := false, guiInvoked := false,
      uncaught := some e, dispatched := false }

/-- The tail of the run after the pipeline-config artifact has been written
(`run.py` lines 229-326, for the non-group levels): manifest resolution
(scan or file load), index selection, the data-config write, and the final
dispatcher.  `cfgFile` is the already-written pipeline-config artifact. -/
def resolveAndDispatch (w : World) (a : Args) (cfgFile : String) : RunResult :=
  match
    (match a.data_config_file with
     | none => scanPath w a
     | some p => loadDataConfig w p)
  with
  | .error h => haltResult h [cfgFile]
  | .ok dc =>
    match ndxSelect dc a.participant_ndx w.st with
    | .error h => haltResult h [cfgFile]
    | .ok (_, name) =>
      let dcFile := dataConfigPath a.output_dir name
      if a.analysis_level = AnalysisLevel.participant then
        { exitCode := 0, writes := [cfgFile, dcFile],
          engineInvoked := true, guiInvoked := false,
          uncaught := none, dispatched := true }
      else
        { exitCode := 0, writes := [cfgFile, dcFile],
          engineInvoked := false, guiInvoked := false,
          uncaught := none, dispatched := true }

/-- The whole control flow of `run.py` after argument parsing (lines
106-326): GUI short-circuit, the two directory existence gates (exit 0 on a
missing directory), the override merge, the summary prints (which read
`workingDirectory` and `removeWorkingDir` and so raise `KeyError` if either
is absent), the pipeline-config write, the group early exit, and
`resolveAndDispatch` for the rest. -/
def mainRun (w : World) (a : Args) : RunResult :=
  if a.analysis_level = AnalysisLevel.GUI then
    { exitCode := 1, writes := [], engineInvoked := false, guiInvoked := true,
      uncaught := none, dispatched := false }
  else if startsS3 a.bids_dir = false ∧ w.fsExists a.bids_dir = false then
    { exitCode := 0, writes := [], engineInvoked := false, guiInvoked := false,
      uncaught := none, dispatched := false }
  else if startsS3 a.output_dir = false ∧ w.fsExists a.output_dir = false then
    { exitCode := 0, writes := [], engineInvoked := false, guiInvoked := false,
      uncaught := none, dispatched := false }
  else
    match mergePipelineConfig w a w.basePipelineConfig with
    | .error e => haltResult (Halt.raised e) []
    | .ok pc =>
      match pc.workingDirectory with
      | none => haltResult (Halt.raised (PyError.keyError "workingDirectory")) []
      | some _ =>
        match pc.removeWorkingDir with
        | none => haltResult (Halt.raised (PyError.keyError "removeWorkingDir")) []
        | some _ =>
          let cfgFile := pipelineConfigPath a.output_dir w.st
          if a.analysis_level = AnalysisLevel.group then
            { exitCode := 0, writes := [cfgFile], engineInvoked := false,
              guiInvoked := false, uncaught := none, dispatched := false }
          else
            resolveAndDispatch w a cfgFile

/-! ### Shared concrete fixtures -/

/-- A base pipeline configuration as loaded from the default YAML: it carries
the `num_ants_threads` default (8) and pre-existing working-directory
settings. -/
def baseStd : PipelineConfig :=
  { num_ants_threads := some 8, removeWorkingDir := some false,
    workingDirectory := some "/base/working" }

/-- A world in which every path exists, the BIDS directory holds subjects
01, 02, 03, and an external data config (when used) lists two subjects. -/
def wStd : World :=
  { fsExists := fun _ => true, isFile := fun _ => true,
    basePipelineConfig := baseStd,
    bidsSubjects := ["01", "02", "03"],
    loadedDataConfig := { subjectList := ["sub-01", "sub-02"] },
    st := "20191102030405" }

/-- Arguments for a scan-path run requesting labels 02 and 04 (claim C1). -/
def aC1 : Args :=
  { bids_dir := "/bids", output_dir := "/out",
    analysis_level := AnalysisLevel.participant,
    participant_label := some ["02", "04"] }

/-- Arguments requesting working-directory retention while the output
destination is an S3 bucket (claim C2). -/
def aC2 : Args :=
  { bids_dir := "/bids", output_dir := "s3://bucket/out",
    analysis_level := AnalysisLevel.participant, save_working_dir := true }

/-- A base pipeline configuration whose YAML document has no
`removeWorkingDir` and no `workingDirectory` key (claim C2). -/
def baseC2none : PipelineConfig := { num_ants_threads := some 8 }

/-- Arguments selecting participant index 0 of an external data config
(claim C3). -/
def aC3 : Args :=
  { bids_dir := "/bids", output_dir := "/out",
    analysis_level := AnalysisLevel.participant,
    data_config_file := some "/dc.yml", participant_ndx := some "0" }

/-- Arguments supplying only `--mem_mb 3072` (claim C4). -/
def aC4 : Args :=
  { bids_dir := "/bids", output_dir := "/out",
    analysis_level := AnalysisLevel.participant, mem_mb := some 3072 }

/-- Arguments requesting 4 CPUs (claim C5). -/
def aC5 : Args :=
  { bids_dir := "/bids", output_dir := "/out",
    analysis_level := AnalysisLevel.participant, n_cpus := 4 }

/-- A world whose BIDS directory yields no subjects at all (claim C6). -/
def wC6 : World := { wStd with bidsSubjects := [] }

/-- Arguments for a plain scan-path participant run (claim C6). -/
def aC6 : Args :=
  { bids_dir := "/bids", output_dir := "/out",
    analysis_level := AnalysisLevel.participant }

/-- Arguments for a `test_config` dry run over an external data config
(claim C7). -/
def aC7 : Args :=
  { bids_dir := "/bids", output_dir := "/out",
    analysis_level := AnalysisLevel.test_config,
    data_config_file := some "/dc.yml" }

/-- Arguments for a `test_config` scan-path run (claim C9). -/
def aC9 : Args :=
  { bids_dir := "/bids", output_dir := "/out9",
    analysis_level := AnalysisLevel.test_config }

/-- Arguments whose output directory merely CONTAINS `s3://` in the middle
(claim C10). -/
def aC10 : Args :=
  { bids_dir := "/bids", output_dir := "/data/outs3://x",
    analysis_level := AnalysisLevel.test_config,
    data_config_file := some "/dc.yml" }

/-- Arguments whose BIDS directory merely contains `s3://` in the middle
(claim C10). -/
def aC10b : Args :=
  { bids_dir := "/b/s3://bids", output_dir := "/out",
    analysis_level := AnalysisLevel.test_config,
    data_config_file := some "/dc.yml" }

/-- A world in which no local path exists (claim C10). -/
def wC10b : World := { wStd with fsExists := fun _ => false }

/-! ### Structural lemmas about the override merger -/

/-- A successful merge is exactly `applyOverrides` at the base config's
`num_ants_threads` value and the validated credential overrides. -/
lemma mergePipelineConfig_ok (w : World) (a : Args) (base pc : PipelineConfig)
    (h : mergePipelineConfig w a base = .ok pc) :
    ∃ d ic oc, base.num_ants_threads = some d ∧ pc = applyOverrides a base d ic oc := by
  unfold mergePipelineConfig at h
  cases hd : base.num_ants_threads with
  | none => rw [hd] at h; exact absurd h (by simp)
  | some d =>
    rw [hd] at h
    cases hic : checkCred w a.aws_input_creds with
    | error e => rw [hic] at h; exact absurd h (by simp)
    | ok ic =>
      rw [hic] at h
      cases hoc : checkCred w a.aws_output_creds with
      | error e => rw [hoc] at h; exact absurd h (by simp)
      | ok oc =>
        rw [hoc] at h
        exact ⟨d, ic, oc, rfl, (Except.ok.inj h).symm⟩

/-- The merged memory setting is `resolveMemory` applied to the CLI values,
whatever the other arguments are. -/
lemma applyOverrides_memory (a : Args) (base : PipelineConfig) (d : Int)
    (ic oc : Option String) :
    (applyOverrides a base d ic oc).maximumMemoryPerParticipant =
      some (resolveMemory a.mem_gb a.mem_mb) := by
  cases ic <;> cases oc <;> simp only [applyOverrides] <;> split_ifs <;> rfl

/-- The merged core count and ANTs thread cap. -/
lemma applyOverrides_threads (a : Args) (base : PipelineConfig) (d : Int)
    (ic oc : Option String) :
    (applyOverrides a base d ic oc).maxCoresPerParticipant = some a.n_cpus ∧
    (applyOverrides a base d ic oc).num_ants_threads = some (min a.n_cpus d) := by
  cases ic <;> cases oc <;> simp only [applyOverrides] <;> split_ifs <;> exact ⟨rfl, rfl⟩

/-- In the retained-working-dir-on-S3 case the merger assigns neither
`removeWorkingDir` nor `workingDirectory`; the logging flag is still set. -/
lemma applyOverrides_s3save (a : Args) (base : PipelineConfig) (d : Int)
    (ic oc : Option String) (hs : a.save_working_dir = true)
    (hr : containsS3 a.output_dir = true) :
    (applyOverrides a base d ic oc).removeWorkingDir = base.removeWorkingDir ∧
    (applyOverrides a base d ic oc).workingDirectory = base.workingDirectory ∧
    (applyOverrides a base d ic oc).disable_log = some a.disable_file_logging := by
  cases ic <;> cases oc <;> cases hdl : a.disable_file_logging <;>
    simp [applyOverrides, hs, hr, hdl]

/-! ### Claim C2 (working-directory retention vs. remote output) -/

/-- C2, counterexample: with `--save_working_dir` and an S3 output
destination, the merged configuration does NOT fall through to the
non-retained default.  With a base config carrying
`removeWorkingDir: false` and `workingDirectory: /base/working`, both values
survive unchanged (`removeWorkingDir` is not `true`, the working directory is
not the scratch root); with a base config lacking the keys, `removeWorkingDir`
is simply absent from the final document. -/
theorem spec_c2_counterexample :
    (match mergePipelineConfig wStd aC2 baseStd with
     | .ok pc => pc.removeWorkingDir
     | .error _ => none) = some false ∧
    (match mergePipelineConfig wStd aC2 baseStd with
     | .ok pc => pc.workingDirectory
     | .error _ => none) = some "/base/working" ∧
    (match mergePipelineConfig wStd aC2 baseC2none with
     | .ok pc => pc.removeWorkingDir
     | .error _ => some true) = none :=
  ⟨rfl, rfl, rfl⟩

/-- C2, amended: when `--save_working_dir` is requested and the output
destination is remote storage, retention is refused with only a warning and
the merger assigns nothing: `removeWorkingDir` and `workingDirectory` keep
whatever values (possibly none) the base configuration had, and only the
file-logging flag is always explicitly set. -/
theorem spec_c2_s3_save_keeps_base (w : World) (a : Args) (base pc : PipelineConfig)
    (hs : a.save_working_dir = true) (hr : containsS3 a.output_dir = true)
    (h : mergePipelineConfig w a base = .ok pc) :
    pc.removeWorkingDir = base.removeWorkingDir ∧
    pc.workingDirectory = base.workingDirectory ∧
    pc.disable_log = some a.disable_file_logging := by
  obtain ⟨d, ic, oc, _, rfl⟩ := mergePipelineConfig_ok w a base pc h
  exact applyOverrides_s3save a base d ic oc hs hr

/-- C2, witness for the amended statement at the concrete fixture. -/
theorem spec_c2_amended_witness :
    (applyOverrides aC2 baseStd 8 none none).removeWorkingDir = baseStd.removeWorkingDir ∧
    (applyOverrides aC2 baseStd 8 none none).workingDirectory = baseStd.workingDirectory ∧
    (applyOverrides aC2 baseStd 8 none none).disable_log = some aC2.disable_file_logging :=
  spec_c2_s3_save_keeps_base wStd aC2 baseStd _ rfl rfl rfl

/-! ### Claim C4 (memory resolution) -/

/-- C4: in every successfully merged configuration, the resolved maximum
memory per participant is the GB value when GB is supplied (GB takes
precedence over MB), else MB divided by 1024 when only MB is supplied, else
the fixed baseline 6.0 GB. -/
theorem spec_c4_memory_resolution (w : World) (a : Args) (base pc : PipelineConfig)
    (h : mergePipelineConfig w a base = .ok pc) :
    (∀ g : ℚ, a.mem_gb = some g → pc.maximumMemoryPerParticipant = some g) ∧
    (a.mem_gb = none → ∀ m : ℚ, a.mem_mb = some m →
      pc.maximumMemoryPerParticipant = some (m / 1024)) ∧
    (a.mem_gb = none → a.mem_mb = none → pc.maximumMemoryPerParticipant = some 6) := by
  obtain ⟨d, ic, oc, _, rfl⟩ := mergePipelineConfig_ok w a base pc h
  refine ⟨?_, ?_, ?_⟩
  · intro g hg; rw [applyOverrides_memory]; simp [resolveMemory, hg]
  · intro hg m hm; rw [applyOverrides_memory]; simp [resolveMemory, hg, hm]
  · intro hg hm; rw [applyOverrides_memory]; simp [resolveMemory, hg, hm]

/-- C4, witness: MB-only input 3072 resolves to 3072/1024 = 3 GB. -/
theorem spec_c4_witness :
    (applyOverrides aC4 baseStd 8 none none).maximumMemoryPerParticipant =
      some ((3072 : ℚ) / 1024) :=
  (spec_c4_memory_resolution wStd aC4 baseStd _ rfl).2.1 rfl 3072 rfl

/-! ### Claim C5 (core count and ANTs thread cap) -/

/-- C5: in every successfully merged configuration, the resolved core count
equals the requested CPU count and the ANTs thread cap equals the minimum of
the requested CPU count and the base config's thread default; in particular
the cap never exceeds the requested CPU count. -/
theorem spec_c5_thread_caps (w : World) (a : Args) (base pc : PipelineConfig) (d : Int)
    (hd : base.num_ants_threads = some d)
    (h : mergePipelineConfig w a base = .ok pc) :
    pc.maxCoresPerParticipant = some a.n_cpus ∧
    pc.num_ants_threads = some (min a.n_cpus d) ∧
    (∀ t : Int, pc.num_ants_threads = some t → t ≤ a.n_cpus) := by
  obtain ⟨d', ic, oc, hd', rfl⟩ := mergePipelineConfig_ok w a base pc h
  have hdd : d = d' := by rw [hd] at hd'; exact Option.some.inj hd'
  subst hdd
  obtain ⟨h1, h2⟩ := applyOverrides_threads a base d ic oc
  refine ⟨h1, h2, ?_⟩
  intro t ht
  rw [h2] at ht
  exact (Option.some.inj ht) ▸ min_le_left _ _

/-- C5, witness: 4 requested CPUs against an ANTs default of 8 resolve to 4
ANTs threads. -/
theorem spec_c5_witness :
    (applyOverrides aC5 baseStd 8 none none).num_ants_threads = some (4 : ℤ) := by
  have h := (spec_c5_thread_caps wStd aC5 baseStd _ 8 rfl rfl).2.1
  rw [h]; decide

/-! ### Structural lemmas about the main control flow -/

/-- On the scan path, the very first thing the synthesized `data_config`
literal does is evaluate the unbound name `dataFormat`: every scan-path
resolution raises `NameError`, for every world and every argument vector. -/
lemma scanPath_nameError (w : World) (a : Args) :
    scanPath w a = Except.error (Halt.raised (PyError.nameError "dataFormat")) := rfl

/-- Index selection can only succeed when no (truthy) index was supplied:
the output is then the unchanged data config and the unindexed artifact
name. -/
lemma ndxSelect_ok (dc : DataConfig) (ndx : Option String) (st : String)
    (dc' : DataConfig) (name : String)
    (h : ndxSelect dc ndx st = .ok (dc', name)) :
    dc' = dc ∧ name = "cpac_data_config_" ++ st ++ ".yml" := by
  cases ndx with
  | none =>
    simp [ndxSelect] at h
    exact ⟨h.1.symm, h.2.symm⟩
  | some n =>
    by_cases hn : n = ""
    · simp [ndxSelect, hn] at h
      exact ⟨h.1.symm, h.2.symm⟩
    · cases hi : pyInt n with
      | error e => simp [ndxSelect, hn, hi] at h
      | ok i =>
        by_cases hb : 0 ≤ i ∧ i < (dc.subjectList.length : Int)
        · simp [ndxSelect, hn, hi, hb, pyListSubscript] at h
        · simp [ndxSelect, hn, hi, hb] at h

/-- A truthy out-of-bounds index makes index selection exit with status 1. -/
lemma ndxSelect_oob (dc : DataConfig) (st : String) (n : String) (i : Int)
    (hne : n ≠ "") (hi : pyInt n = .ok i)
    (hb : ¬(0 ≤ i ∧ i < (dc.subjectList.length : Int))) :
    ndxSelect dc (some n) st = .error (Halt.exited 1) := by
  simp [ndxSelect, hne, hi, hb]

/-- When the GUI branch and both existence gates do not fire, the merge
succeeds, the summary prints find their keys, and the level is not `group`,
the run is the resolve-and-dispatch tail after writing the pipeline-config
artifact. -/
lemma mainRun_reaches (w : World) (a : Args) (pc : PipelineConfig)
    (u : String) (v : Bool)
    (hGUI : a.analysis_level ≠ AnalysisLevel.GUI)
    (hgr : a.analysis_level ≠ AnalysisLevel.group)
    (hb : ¬(startsS3 a.bids_dir = false ∧ w.fsExists a.bids_dir = false))
    (ho : ¬(startsS3 a.output_dir = false ∧ w.fsExists a.output_dir = false))
    (hm : mergePipelineConfig w a w.basePipelineConfig = .ok pc)
    (hwd : pc.workingDirectory = some u)
    (hrwd : pc.removeWorkingDir = some v) :
    mainRun w a = resolveAndDispatch w a (pipelineConfigPath a.output_dir w.st) := by
  simp [mainRun, hGUI, hgr, hb, ho, hm, hwd, hrwd]

/-- Group-level runs stop right after the pipeline-config write, with exit
status 0 and without dispatching. -/
lemma mainRun_group (w : World) (a : Args) (pc : PipelineConfig)
    (u : String) (v : Bool)
    (hgr : a.analysis_level = AnalysisLevel.group)
    (hb : ¬(startsS3 a.bids_dir = false ∧ w.fsExists a.bids_dir = false))
    (ho : ¬(startsS3 a.output_dir = false ∧ w.fsExists a.output_dir = false))
    (hm : mergePipelineConfig w a w.basePipelineConfig = .ok pc)
    (hwd : pc.workingDirectory = some u)
    (hrwd : pc.removeWorkingDir = some v) :
    mainRun w a =
      { exitCode := 0, writes := [pipelineConfigPath a.output_dir w.st],
        engineInvoked := false, guiInvoked := false, uncaught := none,
        dispatched := false } := by
  simp [mainRun, hgr, hb, ho, hm, hwd, hrwd]

/-- If a run reached the final dispatcher, every earlier branch was passed,
so the run equals the resolve-and-dispatch tail and that tail dispatched. -/
lemma mainRun_dispatched_eq (w : World) (a : Args)
    (hd : (mainRun w a).dispatched = true) :
    mainRun w a = resolveAndDispatch w a (pipelineConfigPath a.output_dir w.st) ∧
    (resolveAndDispatch w a (pipelineConfigPath a.output_dir w.st)).dispatched = true := by
  by_cases h1 : a.analysis_level = AnalysisLevel.GUI
  · simp [mainRun, h1] at hd
  · by_cases h2 : startsS3 a.bids_dir = false ∧ w.fsExists a.bids_dir = false
    · simp [mainRun, h1, h2] at hd
    · by_cases h3 : startsS3 a.output_dir = false ∧ w.fsExists a.output_dir = false
      · simp [mainRun, h1, h2, h3] at hd
      · cases hm : mergePipelineConfig w a w.basePipelineConfig with
        | error e => simp [mainRun, h1, h2, h3, hm, haltResult] at hd
        | ok pc =>
          cases hwd : pc.workingDirectory with
          | none => simp [mainRun, h1, h2, h3, hm, hwd, haltResult] at hd
          | some u =>
            cases hrwd : pc.removeWorkingDir with
            | none => simp [mainRun, h1, h2, h3, hm, hwd, hrwd, haltResult] at hd
            | some v =>
              by_cases h4 : a.analysis_level = AnalysisLevel.group
              · simp [mainRun, h1, h2, h3, hm, hwd, hrwd, h4] at hd
              · have heq : mainRun w a =
                    resolveAndDispatch w a (pipelineConfigPath a.output_dir w.st) := by
                  simp [mainRun, h1, h2, h3, hm, hwd, hrwd, h4]
                exact ⟨heq, heq ▸ hd⟩

/-- A `test_config` run whose tail dispatched wrote the data-config artifact
under the unindexed timestamped name, never invoked the engine, and ended
with status 0. -/
lemma resolveAndDispatch_test (w : World) (a : Args) (cfgFile : String)
    (hlvl : a.analysis_level = AnalysisLevel.test_config)
    (hd : (resolveAndDispatch w a cfgFile).dispatched = true) :
    resolveAndDispatch w a cfgFile =
      { exitCode := 0,
        writes := [cfgFile,
                   dataConfigPath a.output_dir ("cpac_data_config_" ++ w.st ++ ".yml")],
        engineInvoked := false, guiInvoked := false, uncaught := none,
        dispatched := true } := by
  cases hs : (match a.data_config_file with
              | none => scanPath w a
              | some p => loadDataConfig w p) with
  | error h =>
    cases h <;> simp [resolveAndDispatch, hs, haltResult] at hd
  | ok dc =>
    cases hnx : ndxSelect dc a.participant_ndx w.st with
    | error h =>
      cases h <;> simp [resolveAndDispatch, hs, hnx, haltResult] at hd
    | ok pr =>
      obtain ⟨dc', name⟩ := pr
      obtain ⟨-, hname⟩ := ndxSelect_ok dc a.participant_ndx w.st dc' name hnx
      subst hname
      simp [resolveAndDispatch, hs, hnx, hlvl]

/-! ### Claim C1 (scan-path label filtering) -/

/-- C1 evaluated on the code: for discovered subjects 01, 02, 03 and
requested labels 02 and 04, the run does not resolve `[sub-02]` with missing
set 04 — it dies of the uncaught `NameError` raised by the bare-identifier
dictionary keys at the `data_config` literal (before any filtering), with
exit status 1 and only the pipeline-config artifact written; and even the
filtering fragment itself, run on those sets in isolation, raises
`AttributeError` because Python sets have no `intersect` method. -/
theorem spec_c1_scan_filter_crash :
    (mainRun wStd aC1).uncaught = some (PyError.nameError "dataFormat") ∧
    (mainRun wStd aC1).exitCode = 1 ∧
    (mainRun wStd aC1).writes = ["/out/cpac_pipeline_config_20191102030405.yml"] ∧
    (mainRun wStd aC1).engineInvoked = false ∧
    scanLabelFilter (pySetOfList wStd.bidsSubjects) ["02", "04"] =
      Except.error
        (PyError.attributeError "'set' object has no attribute 'intersect'") :=
  ⟨rfl, rfl, rfl, rfl, rfl⟩

/-! ### Claim C3 (participant index selection) -/

/-- C3 evaluated on the code: with an external data config of two subjects
and the in-range index 0, the selection does not collapse the list to
`[sub-01]` — line 291 subscripts the list with the raw CLI STRING `"0"` and
the run dies of the uncaught `TypeError`, with exit status 1 and no
data-config artifact.  The rejection side does behave as claimed: index 5 is
out of range, the run exits cleanly (no exception) with status 1 and without
the data-config artifact. -/
theorem spec_c3_string_index_crash :
    (mainRun wStd aC3).uncaught =
      some (PyError.typeError "list indices must be integers, not str") ∧
    (mainRun wStd aC3).exitCode = 1 ∧
    (mainRun wStd aC3).writes = ["/out/cpac_pipeline_config_20191102030405.yml"] ∧
    (mainRun wStd aC3).engineInvoked = false ∧
    (mainRun wStd { aC3 with participant_ndx := some "5" }).exitCode = 1 ∧
    (mainRun wStd { aC3 with participant_ndx := some "5" }).uncaught = none ∧
    (mainRun wStd { aC3 with participant_ndx := some "5" }).writes =
      ["/out/cpac_pipeline_config_20191102030405.yml"] :=
  ⟨rfl, rfl, rfl, rfl, rfl, rfl, rfl⟩

/-! ### Claim C6 (empty resolved subject list) -/

/-- C6 evaluated on the code: on a scan-path run over a BIDS directory with
no subjects, the dedicated empty-list diagnostic and `sys.exit(1)` at lines
264-266 are never reached — the run dies earlier of the uncaught `NameError`
from the `data_config` literal.  The process does end with status 1, without
the data-config artifact and without dispatching (the pipeline-config
artifact was already written), but via the exception, not the claimed
diagnostic branch. -/
theorem spec_c6_empty_scan_preempted :
    (mainRun wC6 aC6).exitCode = 1 ∧
    (mainRun wC6 aC6).uncaught = some (PyError.nameError "dataFormat") ∧
    (mainRun wC6 aC6).writes = ["/out/cpac_pipeline_config_20191102030405.yml"] ∧
    (mainRun wC6 aC6).engineInvoked = false ∧
    (mainRun wC6 aC6).dispatched = false :=
  ⟨rfl, rfl, rfl, rfl, rfl⟩

/-! ### Claim C7 (test_config dry run) -/

/-- C7: every `test_config` run that reaches the final dispatcher has
written exactly the two artifacts — the pipeline config and the data config,
both named from the same run timestamp `w.st` — exits with status 0, and
never invokes the execution engine. -/
theorem spec_c7_dry_run (w : World) (a : Args)
    (hlvl : a.analysis_level = AnalysisLevel.test_config)
    (hd : (mainRun w a).dispatched = true) :
    (mainRun w a).exitCode = 0 ∧
    (mainRun w a).engineInvoked = false ∧
    (mainRun w a).writes =
      [pipelineConfigPath a.output_dir w.st,
       dataConfigPath a.output_dir ("cpac_data_config_" ++ w.st ++ ".yml")] := by
  obtain ⟨heq, hd'⟩ := mainRun_dispatched_eq w a hd
  rw [heq, resolveAndDispatch_test w a _ hlvl hd']
  exact ⟨rfl, rfl, rfl⟩

/-- C7, witness: a concrete `test_config` run over an external data config
dispatches and satisfies the dry-run contract. -/
theorem spec_c7_witness :
    (mainRun wStd aC7).exitCode = 0 ∧
    (mainRun wStd aC7).engineInvoked = false ∧
    (mainRun wStd aC7).writes =
      [pipelineConfigPath aC7.output_dir wStd.st,
       dataConfigPath aC7.output_dir ("cpac_data_config_" ++ wStd.st ++ ".yml")] :=
  spec_c7_dry_run wStd aC7 rfl rfl

/-! ### Claim C9 (scan path always fails with NameError) -/

/-- C9: no scan-path run (no external data-config file) ever dispatches or
invokes the engine; and whenever such a run gets past the gates and the
merge, it terminates with the uncaught `NameError` on the unbound dictionary
key `dataFormat`, raised before any subject filtering, with the data-config
artifact never written (only the already-written pipeline-config artifact is
on disk). -/
theorem spec_c9_scan_name_error :
    (∀ (w : World) (a : Args), a.data_config_file = none →
      (mainRun w a).dispatched = false ∧ (mainRun w a).engineInvoked = false) ∧
    (∀ (w : World) (a : Args) (pc : PipelineConfig) (u : String) (v : Bool),
      a.data_config_file = none →
      a.analysis_level ≠ AnalysisLevel.GUI →
      a.analysis_level ≠ AnalysisLevel.group →
      ¬(startsS3 a.bids_dir = false ∧ w.fsExists a.bids_dir = false) →
      ¬(startsS3 a.output_dir = false ∧ w.fsExists a.output_dir = false) →
      mergePipelineConfig w a w.basePipelineConfig = .ok pc →
      pc.workingDirectory = some u →
      pc.removeWorkingDir = some v →
      mainRun w a =
        haltResult (Halt.raised (PyError.nameError "dataFormat"))
          [pipelineConfigPath a.output_dir w.st]) := by
  constructor
  · intro w a hdc
    by_cases h1 : a.analysis_level = AnalysisLevel.GUI
    · simp [mainRun, h1]
    · by_cases h2 : startsS3 a.bids_dir = false ∧ w.fsExists a.bids_dir = false
      · simp [mainRun, h1, h2]
      · by_cases h3 : startsS3 a.output_dir = false ∧ w.fsExists a.output_dir = false
        · simp [mainRun, h1, h2, h3]
        · cases hm : mergePipelineConfig w a w.basePipelineConfig with
          | error e => simp [mainRun, h1, h2, h3, hm, haltResult]
          | ok pc =>
            cases hwd : pc.workingDirectory with
            | none => simp [mainRun, h1, h2, h3, hm, hwd, haltResult]
            | some u =>
              cases hrwd : pc.removeWorkingDir with
              | none => simp [mainRun, h1, h2, h3, hm, hwd, hrwd, haltResult]
              | some v =>
                by_cases h4 : a.analysis_level = AnalysisLevel.group
                · simp [mainRun, h1, h2, h3, hm, hwd, hrwd, h4]
                · rw [mainRun_reaches w a pc u v h1 h4 h2 h3 hm hwd hrwd]
                  simp [resolveAndDispatch, hdc, scanPath_nameError, haltResult]
  · intro w a pc u v hdc hGUI hgr hb ho hm hwd hrwd
    rw [mainRun_reaches w a pc u v hGUI hgr hb ho hm hwd hrwd]
    simp [resolveAndDispatch, hdc, scanPath_nameError]

/-- C9, witness: the universal statement applied to a concrete scan-path
`test_config` run. -/
theorem spec_c9_witness :
    mainRun wStd aC9 =
      haltResult (Halt.raised (PyError.nameError "dataFormat"))
        [pipelineConfigPath aC9.output_dir wStd.st] :=
  spec_c9_scan_name_error.2 wStd aC9 _ "/scratch/working" true rfl
    (by decide) (by decide) (by simp [wStd, startsS3]) (by simp [wStd, startsS3])
    rfl rfl rfl

/-! ### Claim C8 (process exit statuses) -/

/-- C8: the exit-status table of the script.  Status 1 after the GUI branch
returns; status 0 when the (locally addressed) BIDS or output directory does
not exist, despite the error print; status 0 on the group path and on every
`test_config` run that reaches the dispatcher; status 1 (with no exception)
on a truthy out-of-range participant index; and status 1 on every scan-path
run that gets past the merge — which covers in particular the
empty-resolved-subject-list case. -/
theorem spec_c8_exit_statuses :
    (∀ (w : World) (a : Args), a.analysis_level = AnalysisLevel.GUI →
      (mainRun w a).exitCode = 1 ∧ (mainRun w a).guiInvoked = true) ∧
    (∀ (w : World) (a : Args), a.analysis_level ≠ AnalysisLevel.GUI →
      startsS3 a.bids_dir = false → w.fsExists a.bids_dir = false →
      (mainRun w a).exitCode = 0) ∧
    (∀ (w : World) (a : Args), a.analysis_level ≠ AnalysisLevel.GUI →
      ¬(startsS3 a.bids_dir = false ∧ w.fsExists a.bids_dir = false) →
      startsS3 a.output_dir = false → w.fsExists a.output_dir = false →
      (mainRun w a).exitCode = 0) ∧
    (∀ (w : World) (a : Args) (pc : PipelineConfig) (u : String) (v : Bool),
      a.analysis_level = AnalysisLevel.group →
      ¬(startsS3 a.bids_dir = false ∧ w.fsExists a.bids_dir = false) →
      ¬(startsS3 a.output_dir = false ∧ w.fsExists a.output_dir = false) →
      mergePipelineConfig w a w.basePipelineConfig = .ok pc →
      pc.workingDirectory = some u → pc.removeWorkingDir = some v →
      (mainRun w a).exitCode = 0) ∧
    (∀ (w : World) (a : Args), a.analysis_level = AnalysisLevel.test_config →
      (mainRun w a).dispatched = true → (mainRun w a).exitCode = 0) ∧
    (∀ (w : World) (a : Args) (pc : PipelineConfig) (u : String) (v : Bool)
       (p n : String) (i : Int),
      a.analysis_level ≠ AnalysisLevel.GUI →
      a.analysis_level ≠ AnalysisLevel.group →
      ¬(startsS3 a.bids_dir = false ∧ w.fsExists a.bids_dir = false) →
      ¬(startsS3 a.output_dir = false ∧ w.fsExists a.output_dir = false) →
      mergePipelineConfig w a w.basePipelineConfig = .ok pc →
      pc.workingDirectory = some u → pc.removeWorkingDir = some v →
      a.data_config_file = some p → w.fsExists p = true →
      a.participant_ndx = some n → n ≠ "" → pyInt n = .ok i →
      ¬(0 ≤ i ∧ i < (w.loadedDataConfig.subjectList.length : Int)) →
      (mainRun w a).exitCode = 1 ∧ (mainRun w a).uncaught = none) ∧
    (∀ (w : World) (a : Args) (pc : PipelineConfig) (u : String) (v : Bool),
      a.data_config_file = none →
      a.analysis_level ≠ AnalysisLevel.GUI →
      a.analysis_level ≠ AnalysisLevel.group →
      ¬(startsS3 a.bids_dir = false ∧ w.fsExists a.bids_dir = false) →
      ¬(startsS3 a.output_dir = false ∧ w.fsExists a.output_dir = false) →
      mergePipelineConfig w a w.basePipelineConfig = .ok pc →
      pc.workingDirectory = some u → pc.removeWorkingDir = some v →
      (mainRun w a).exitCode = 1) := by
  refine ⟨?_, ?_, ?_, ?_, ?_, ?_, ?_⟩
  · intro w a h
    simp [mainRun, h]
  · intro w a hGUI hb hf
    simp [mainRun, hGUI, hb, hf]
  · intro w a hGUI hb ho hf
    simp [mainRun, hGUI, hb, ho, hf]
  · intro w a pc u v hgr hb ho hm hwd hrwd
    rw [mainRun_group w a pc u v hgr hb ho hm hwd hrwd]
  · intro w a hlvl hd
    obtain ⟨heq, hd'⟩ := mainRun_dispatched_eq w a hd
    rw [heq, resolveAndDispatch_test w a _ hlvl hd']
  · intro w a pc u v p n i hGUI hgr hb ho hm hwd hrwd hdcf hex hnx hne hi hoob
    rw [mainRun_reaches w a pc u v hGUI hgr hb ho hm hwd hrwd]
    have hx := ndxSelect_oob w.loadedDataConfig w.st n i hne hi hoob
    simp [resolveAndDispatch, hdcf, loadDataConfig, hex, hnx, hx, haltResult]
  · intro w a pc u v hdc hGUI hgr hb ho hm hwd hrwd
    rw [mainRun_reaches w a pc u v hGUI hgr hb ho hm hwd hrwd]
    simp [resolveAndDispatch, hdc, scanPath_nameError, haltResult]

/-- C8, witness: each exit-status row of the table at a concrete run. -/
theorem spec_c8_witness :
    (mainRun wStd { aC6 with analysis_level := AnalysisLevel.GUI }).exitCode = 1 ∧
    (mainRun wC10b aC6).exitCode = 0 ∧
    (mainRun wStd { aC6 with analysis_level := AnalysisLevel.group }).exitCode = 0 ∧
    (mainRun wStd aC7).exitCode = 0 ∧
    (mainRun wStd { aC3 with participant_ndx := some "5" }).exitCode = 1 ∧
    (mainRun wStd aC9).exitCode = 1 := by
  refine ⟨(spec_c8_exit_statuses.1 wStd { aC6 with
      analysis_level := AnalysisLevel.GUI } rfl).1, ?_, ?_, ?_, ?_, ?_⟩
  · exact spec_c8_exit_statuses.2.1 wC10b aC6 (by decide) rfl rfl
  · exact spec_c8_exit_statuses.2.2.2.1 wStd
      { aC6 with analysis_level := AnalysisLevel.group } _ "/scratch/working" true rfl
      (by simp [wStd, startsS3]) (by simp [wStd, startsS3]) rfl rfl rfl
  · exact spec_c8_exit_statuses.2.2.2.2.1 wStd aC7 rfl rfl
  · exact (spec_c8_exit_statuses.2.2.2.2.2.1 wStd
      { aC3 with participant_ndx := some "5" } _ "/scratch/working" true
      "/dc.yml" "5" 5 (by decide) (by decide)
      (by simp [wStd, startsS3]) (by simp [wStd, startsS3]) rfl rfl rfl rfl rfl
      rfl (by decide) rfl (by decide)).1
  · exact spec_c8_exit_statuses.2.2.2.2.2.2 wStd aC9 _ "/scratch/working" true rfl
      (by decide) (by decide) (by simp [wStd, startsS3]) (by simp [wStd, startsS3])
      rfl rfl rfl

/-! ### Claim C10 (remote-storage classification) -/

/-- C10: the output destination is classified as remote by a SUBSTRING test
on the lowercased path (`containsS3`), not a prefix test, and this same test
decides the crash/log directories, the pipeline-config artifact location and
the data-config artifact location; the BIDS directory gate instead uses a
prefix test (`startsS3`).  Consequently a local output path that merely
contains `s3://` in its middle has its crash/log directories and both
artifacts routed to the fixed /scratch root, while a BIDS path of the same
shape is still subjected to the local existence gate. -/
theorem spec_c10_remote_substring :
    (∀ s : String, containsS3 s = listHasInfix "s3://".data (pyLower s).data) ∧
    containsS3 "/data/outs3://x" = true ∧
    startsS3 "/data/outs3://x" = false ∧
    (∀ (a : Args) (base : PipelineConfig) (d : Int) (ic oc : Option String),
      containsS3 a.output_dir = true →
      (applyOverrides a base d ic oc).crashLogDirectory = some "/scratch/crash" ∧
      (applyOverrides a base d ic oc).logDirectory = some "/scratch/log") ∧
    (∀ out st : String, containsS3 out = true →
      pipelineConfigPath out st =
        pathJoin "/scratch" ("cpac_pipeline_config_" ++ st ++ ".yml")) ∧
    (∀ out name : String, containsS3 out = true →
      dataConfigPath out name = pathJoin "/scratch" name) ∧
    (mainRun wStd aC10).writes =
      ["/scratch/cpac_pipeline_config_20191102030405.yml",
       "/scratch/cpac_data_config_20191102030405.yml"] ∧
    (mainRun wC10b aC10b).exitCode = 0 ∧
    (mainRun wC10b aC10b).writes = [] := by
  refine ⟨fun s => rfl, rfl, rfl, ?_, ?_, ?_, rfl, rfl, rfl⟩
  · intro a base d ic oc hr
    cases ic <;> cases oc <;> simp only [applyOverrides] <;> split_ifs <;>
      first
        | exact ⟨rfl, rfl⟩
        | simp_all
  · intro out st hr
    simp [pipelineConfigPath, hr]
  · intro out name hr
    simp [dataConfigPath, hr]

/-- C10, witness: the routing consequences at concrete remote-looking
paths. -/
theorem spec_c10_witness :
    (applyOverrides aC2 baseC2none 8 none none).crashLogDirectory =
      some "/scratch/crash" ∧
    pipelineConfigPath "s3://bucket/out" "t" = "/scratch/cpac_pipeline_config_t.yml" ∧
    dataConfigPath "s3://bucket/out" "n.yml" = "/scratch/n.yml" := by
  refine ⟨(spec_c10_remote_substring.2.2.2.1 aC2 baseC2none 8 none none rfl).1, ?_, ?_⟩
  · rw [spec_c10_remote_substring.2.2.2.2.1 "s3://bucket/out" "t" rfl]; rfl
  · rw [spec_c10_remote_substring.2.2.2.2.2.1 "s3://bucket/out" "n.yml" rfl]; rfl
